import Mathlib

/-!
Shallow embedding of the display-state of the Kreo-Assist caregiver app and
synchronization core (src/frontend/app/index.tsx, src/frontend/app/alert.tsx,
and the event-log screen). Remote calls are modelled by their settled
outcomes: `Except Unit α` with `Except.error ()` standing for a thrown
network/parse failure caught by the surrounding try/catch.
-/

namespace Kreo

/-- Alert record, from the `Alert` interface shared by both screens. -/
structure Alert where
  id : String
  type : String
  description : String
  timestamp : String
  acknowledged : Bool
deriving DecidableEq

/-- SystemStatus record from index.tsx. -/
structure SystemStatus where
  current_status : String
  last_updated : String
  description : Option String
deriving DecidableEq

/-- ConnectionStatus record from index.tsx. -/
structure ConnectionStatus where
  is_connected : Bool
  last_ping : String
deriving DecidableEq

/-- STATUS_COLORS object lookup from index.tsx lines 21-25: a key that is
present yields its color, any other key yields `none` (JS `undefined`). -/
def STATUS_COLORS (statusText : String) : Option String :=
  if statusText = "SAFE" then some "#34C759"
  else if statusText = "WARNING" then some "#FFCC00"
  else if statusText = "EMERGENCY" then some "#FF3B30"
  else none

/-- getStatusColor from index.tsx lines 93-95:
`STATUS_COLORS[statusText] || "#999999"` (every stored color is a non-empty,
hence truthy, string, so `||` is exactly the `undefined` fallback). -/
def getStatusColor (statusText : String) : String :=
  (STATUS_COLORS statusText).getD "#999999"

/-- HomeScreen component state: the three resource snapshots (each `none`
until first successfully fetched) plus the `loading` and `refreshing` flags. -/
structure HomeState where
  status : Option SystemStatus
  connection : Option ConnectionStatus
  latestAlert : Option Alert
  loading : Bool
  refreshing : Bool
deriving DecidableEq

/-- fetchData from index.tsx lines 54-77. The three reads are issued
sequentially inside one try block: a thrown failure aborts the rest of the
block (the catch only logs), and the finally clause clears `loading` and
`refreshing` on every path. The latest-alert endpoint may return `null`
(no alert), hence `Except Unit (Option Alert)`. -/
def fetchData (st : HomeState) (statusRes : Except Unit SystemStatus)
    (connRes : Except Unit ConnectionStatus)
    (alertRes : Except Unit (Option Alert)) : HomeState :=
  let body : HomeState :=
    match statusRes with
    | .error _ => st
    | .ok statusData =>
      let st1 := { st with status := some statusData }
      match connRes with
      | .error _ => st1
      | .ok connData =>
        let st2 := { st1 with connection := some connData }
        match alertRes with
        | .error _ => st2
        | .ok alertData => { st2 with latestAlert := alertData }
  { body with loading := false, refreshing := false }

/-- onRefresh from index.tsx lines 88-91: sets `refreshing` and starts a
fetch whose completion is a separate `fetchData` application. -/
def onRefresh (st : HomeState) : HomeState :=
  { st with refreshing := true }

/-- displayed classification, index.tsx line 126:
`const currentStatus = status?.current_status || "SAFE"`. The optional chain
yields `undefined` (falsy) when no snapshot is held, and the empty string is
the only falsy string, so both fall back to `"SAFE"`. -/
def displayedStatus (status : Option SystemStatus) : String :=
  match status with
  | none => "SAFE"
  | some s => if s.current_status = "" then "SAFE" else s.current_status

/-- status icon chooser, index.tsx lines 173-177: only SAFE and WARNING are
distinguished; everything else gets the EMERGENCY icon. -/
def statusIcon (currentStatus : String) : String :=
  if currentStatus = "SAFE" then "checkmark-circle"
  else if currentStatus = "WARNING" then "warning"
  else "alert-circle"

/-- the rendered system-status badge of the home screen. -/
structure StatusBadge where
  icon : String
  color : String
  text : String
deriving DecidableEq

/-- home-screen system-status rendering, index.tsx lines 126-127 and
168-181: classification text, badge color and icon are computed from the
held (possibly absent) status snapshot. -/
def renderStatusBadge (status : Option SystemStatus) : StatusBadge :=
  let currentStatus := displayedStatus status
  { icon := statusIcon currentStatus
    color := getStatusColor currentStatus
    text := currentStatus }

/-- AlertScreen component state from alert.tsx. -/
structure AlertState where
  alert : Option Alert
  loading : Bool
  acknowledging : Bool
deriving DecidableEq

/-- fetchLatestAlert from alert.tsx lines 36-46: on success the held alert
is replaced by the response body (possibly `null`), on a thrown failure the
catch only logs; the finally clause clears `loading` on every path. -/
def fetchLatestAlert (st : AlertState) (res : Except Unit (Option Alert)) :
    AlertState :=
  let body : AlertState :=
    match res with
    | .error _ => st
    | .ok data => { st with alert := data }
  { body with loading := false }

/-- which dialog handleAcknowledge raises. -/
inductive AckNotice
  | noNotice
  | successDialog
  | errorDialog
deriving DecidableEq

/-- observable outcome of one handleAcknowledge invocation: the resulting
component state, the alert_id posted to the acknowledge endpoint (if a
request was issued at all), the dialog raised, and whether the navigation
back is triggered (via the OK button of the success dialog). -/
structure AckOutcome where
  state : AlertState
  requestSent : Option String
  notice : AckNotice
  navigateBack : Bool
deriving DecidableEq

/-- handleAcknowledge from alert.tsx lines 48-79, as a function of the
settled outcome of the single POST it issues: `Except.error ()` is a thrown
transport failure, `Except.ok b` a response with `response.ok = b`.
With no alert held it returns immediately (line 49). Otherwise it sets
`acknowledging`, posts the alert id once, and on `response.ok` raises the
success dialog whose OK button calls `router.back()`; a non-ok response
falls through silently; a thrown failure is caught and raises the error
dialog. The finally clause clears `acknowledging`; `alert` is never
written. -/
def handleAcknowledge (st : AlertState) (res : Except Unit Bool) :
    AckOutcome :=
  match st.alert with
  | none =>
    { state := st, requestSent := none
      notice := AckNotice.noNotice, navigateBack := false }
  | some a =>
    match res with
    | .error _ =>
      { state := { st with acknowledging := false }
        requestSent := some a.id
        notice := AckNotice.errorDialog, navigateBack := false }
    | .ok ok =>
      { state := { st with acknowledging := false }
        requestSent := some a.id
        notice := if ok then AckNotice.successDialog else AckNotice.noNotice
        navigateBack := ok }

/-- the three alternative renderings of AlertScreen, alert.tsx lines
92-224: the loading spinner, the no-alert view (which contains no
acknowledge control), or the detail view whose acknowledge button is
disabled while `acknowledging` is set. -/
inductive AlertView
  | loadingView
  | noAlertView
  | detailView (a : Alert) (ackEnabled : Bool)
deriving DecidableEq

/-- AlertScreen render dispatch, alert.tsx lines 92-224. -/
def renderAlertScreen (st : AlertState) : AlertView :=
  if st.loading then AlertView.loadingView
  else
    match st.alert with
    | none => AlertView.noAlertView
    | some a => AlertView.detailView a (!st.acknowledging)

/-- Models the external JS call
`date.toLocaleDateString` with the en-US locale (short month, numeric day,
2-digit hour and minute) used by the absolute-date
branch of the event-log formatter; the runtime library owns its exact text, so it is modelled as an
abstract rendering of the timestamp. -/
def toLocaleDateString_short (ts : Int) : String :=
  "shortDate:" ++ toString ts

/-- formatDateTime from the event-log screen (lines 503-522 of the
concatenated alert/event source): times are epoch milliseconds,
`Math.floor` of a JS division by a positive constant is `Int.fdiv`. -/
def formatDateTime (now ts : Int) : String :=
  let diff := now - ts
  let minutes := Int.fdiv diff 60000
  let hours := Int.fdiv minutes 60
  let days := Int.fdiv hours 24
  if minutes < 1 then "Just now"
  else if minutes < 60 then toString minutes ++ "m ago"
  else if hours < 24 then toString hours ++ "h ago"
  else if days < 7 then toString days ++ "d ago"
  else toLocaleDateString_short ts

/-- auto-refresh interval, index.tsx line 83. -/
def REFRESH_INTERVAL_MS : Nat := 30000

/-- lifecycle events of the home screen relevant to its polling timer. -/
inductive ScreenEvent
  | mount
  | timerTick
  | unmount
deriving DecidableEq

/-- timer-lifecycle state of the home screen: whether the interval handle
installed by the mount effect is still registered, its period, and how many
times fetchData has been triggered. -/
structure TimerModel where
  intervalActive : Bool
  intervalMs : Nat
  fetchCount : Nat
deriving DecidableEq

/-- the useEffect of index.tsx lines 79-86: mounting fetches once and
installs a single 30000 ms interval; each tick of a registered interval
triggers fetchData; the cleanup of the effect runs unconditionally on teardown
and clears the interval, after which ticks do nothing. -/
def stepTimer (m : TimerModel) : ScreenEvent → TimerModel
  | .mount =>
    { intervalActive := true, intervalMs := REFRESH_INTERVAL_MS
      fetchCount := m.fetchCount + 1 }
  | .timerTick =>
    if m.intervalActive then { m with fetchCount := m.fetchCount + 1 } else m
  | .unmount => { m with intervalActive := false }

/-- a sequence of lifecycle events applied in order. -/
def runEvents (m : TimerModel) (es : List ScreenEvent) : TimerModel :=
  es.foldl stepTimer m

/-- operations that write the home-screen state: a refresh press, or the
completion of a fetchData call with its three settled outcomes. -/
inductive HomeOp
  | refreshPress
  | fetchComplete (statusRes : Except Unit SystemStatus)
      (connRes : Except Unit ConnectionStatus)
      (alertRes : Except Unit (Option Alert))

/-- apply one home-screen operation. -/
def applyHomeOp (st : HomeState) : HomeOp → HomeState
  | .refreshPress => onRefresh st
  | .fetchComplete a b c => fetchData st a b c

/-- apply a sequence of home-screen operations in order. -/
def runHomeOps (st : HomeState) (ops : List HomeOp) : HomeState :=
  ops.foldl applyHomeOp st

/-- a concrete alert and alert-screen state used by concrete evaluations. -/
def sampleAlert : Alert :=
  { id := "a1", type := "emergency", description := "Obstacle ahead"
    timestamp := "T", acknowledged := false }

/-- alert screen holding `sampleAlert`, not loading, not acknowledging. -/
def sampleAlertState : AlertState :=
  { alert := some sampleAlert, loading := false, acknowledging := false }

/-- alert screen holding no alert. -/
def emptyAlertState : AlertState :=
  { alert := none, loading := false, acknowledging := false }

/-- C1 counterexample: the snapshot classification "UNKNOWN" is not one of
SAFE, WARNING, EMERGENCY, yet the home screen renders the text "UNKNOWN"
(not "SAFE") with the fallback color #999999 (not the SAFE color #34C759),
so unrecognized non-missing classifications do not default to SAFE. -/
theorem c1_counterexample :
    (renderStatusBadge (some ⟨"UNKNOWN", "t0", none⟩)).text = "UNKNOWN" ∧
    (renderStatusBadge (some ⟨"UNKNOWN", "t0", none⟩)).text ≠ "SAFE" ∧
    (renderStatusBadge (some ⟨"UNKNOWN", "t0", none⟩)).color = "#999999" ∧
    (renderStatusBadge (some ⟨"UNKNOWN", "t0", none⟩)).color ≠ "#34C759" := by
  decide

/-- C1 amended: when the status snapshot is missing or its classification
string is empty, the displayed classification and coloring default to SAFE
with color #34C759; a non-empty classification outside
{SAFE, WARNING, EMERGENCY} is instead rendered verbatim with the neutral
fallback color #999999. -/
theorem c1_default_safe_on_missing :
    (∀ st : Option SystemStatus,
      (∀ s, st = some s → s.current_status = "") →
      (renderStatusBadge st).text = "SAFE" ∧
      (renderStatusBadge st).color = "#34C759") ∧
    (∀ s : SystemStatus, s.current_status ≠ "" →
      s.current_status ∉ (["SAFE", "WARNING", "EMERGENCY"] : List String) →
      (renderStatusBadge (some s)).text = s.current_status ∧
      (renderStatusBadge (some s)).color = "#999999") := by
  constructor
  · intro st h
    cases st with
    | none => exact ⟨rfl, rfl⟩
    | some s =>
      have hs : s.current_status = "" := h s rfl
      simp [renderStatusBadge, displayedStatus, getStatusColor,
        STATUS_COLORS, statusIcon, hs]
  · intro s h1 h2
    simp only [List.mem_cons, List.not_mem_nil, or_false, not_or] at h2
    obtain ⟨hsafe, hwarn, hemer⟩ := h2
    simp [renderStatusBadge, displayedStatus, getStatusColor,
      STATUS_COLORS, statusIcon, h1, hsafe, hwarn, hemer]

/-- C1 witness: a missing snapshot renders SAFE with #34C759, and the
non-empty unrecognized classification "FOO" renders with #999999. -/
theorem c1_default_safe_on_missing_witness :
    (renderStatusBadge none).text = "SAFE" ∧
    (renderStatusBadge none).color = "#34C759" ∧
    (renderStatusBadge (some ⟨"FOO", "t0", none⟩)).color = "#999999" :=
  ⟨(c1_default_safe_on_missing.1 none (by simp)).1,
   (c1_default_safe_on_missing.1 none (by simp)).2,
   (c1_default_safe_on_missing.2 ⟨"FOO", "t0", none⟩ (by decide)
     (by decide)).2⟩

/-- C9 counterexample: the empty string is outside
{SAFE, WARNING, EMERGENCY}, yet the home screen renders it as "SAFE" (not
verbatim) with the SAFE color #34C759 (not #999999) and the
checkmark-circle icon (not alert-circle), because the JS `||` fallback
treats the empty string as falsy. -/
theorem c9_counterexample :
    ("" : String) ∉ (["SAFE", "WARNING", "EMERGENCY"] : List String) ∧
    (renderStatusBadge (some ⟨"", "t1", none⟩)).text = "SAFE" ∧
    (renderStatusBadge (some ⟨"", "t1", none⟩)).text ≠ "" ∧
    (renderStatusBadge (some ⟨"", "t1", none⟩)).color = "#34C759" ∧
    (renderStatusBadge (some ⟨"", "t1", none⟩)).color ≠ "#999999" ∧
    (renderStatusBadge (some ⟨"", "t1", none⟩)).icon = "checkmark-circle" := by
  decide

/-- C9 amended: every NON-EMPTY status classification string outside
{SAFE, WARNING, EMERGENCY} is rendered verbatim with the neutral fallback
color #999999 and the alert-circle icon, which is the same icon used for
EMERGENCY, since the icon chooser only distinguishes SAFE and WARNING from
everything else. -/
theorem c9_unrecognized_verbatim :
    ∀ (s lu : String) (d : Option String), s ≠ "" →
      s ∉ (["SAFE", "WARNING", "EMERGENCY"] : List String) →
      (renderStatusBadge (some ⟨s, lu, d⟩)).text = s ∧
      (renderStatusBadge (some ⟨s, lu, d⟩)).color = "#999999" ∧
      (renderStatusBadge (some ⟨s, lu, d⟩)).icon = "alert-circle" ∧
      statusIcon "EMERGENCY" = "alert-circle" := by
  intro s lu d h1 h2
  simp only [List.mem_cons, List.not_mem_nil, or_false, not_or] at h2
  obtain ⟨hsafe, hwarn, hemer⟩ := h2
  refine ⟨?_, ?_, ?_, rfl⟩ <;>
    simp [renderStatusBadge, displayedStatus, getStatusColor,
      STATUS_COLORS, statusIcon, h1, hsafe, hwarn, hemer]

/-- C9 witness: the non-empty unrecognized classification "MAINTENANCE"
renders verbatim with #999999 and the alert-circle icon. -/
theorem c9_unrecognized_verbatim_witness :
    (renderStatusBadge (some ⟨"MAINTENANCE", "t2", none⟩)).text =
      "MAINTENANCE" ∧
    (renderStatusBadge (some ⟨"MAINTENANCE", "t2", none⟩)).color =
      "#999999" ∧
    (renderStatusBadge (some ⟨"MAINTENANCE", "t2", none⟩)).icon =
      "alert-circle" :=
  ⟨(c9_unrecognized_verbatim "MAINTENANCE" "t2" none (by decide)
      (by decide)).1,
   (c9_unrecognized_verbatim "MAINTENANCE" "t2" none (by decide)
      (by decide)).2.1,
   (c9_unrecognized_verbatim "MAINTENANCE" "t2" none (by decide)
      (by decide)).2.2.1⟩

/-- C2 counterexample: invoking acknowledge on a held alert with a
write-rejected (non-2xx, `response.ok = false`) response leaves the local
alert state unchanged but raises NO notice at all — the claimed blocking
error notice is not surfaced, since only a thrown transport failure reaches
the catch clause that shows the error dialog. -/
theorem c2_counterexample :
    (handleAcknowledge sampleAlertState (Except.ok false)).notice =
      AckNotice.noNotice ∧
    (handleAcknowledge sampleAlertState (Except.ok false)).notice ≠
      AckNotice.errorDialog ∧
    (handleAcknowledge sampleAlertState (Except.ok false)).state.alert =
      some sampleAlert := by
  decide

/-- C2 amended: for every failing acknowledge invocation on a held alert
the locally held alert state is left unchanged (still active) and exactly
one request is issued (no automatic retry); a network/transport error
surfaces the blocking error dialog, while a write-rejected (non-2xx)
response surfaces no notice at all; neither failure triggers navigation. -/
theorem c2_ack_failure_state_unchanged :
    ∀ (st : AlertState) (a : Alert), st.alert = some a →
      (handleAcknowledge st (Except.error ())).state =
        { st with acknowledging := false } ∧
      (handleAcknowledge st (Except.error ())).notice =
        AckNotice.errorDialog ∧
      (handleAcknowledge st (Except.error ())).navigateBack = false ∧
      (handleAcknowledge st (Except.error ())).requestSent = some a.id ∧
      (handleAcknowledge st (Except.ok false)).state =
        { st with acknowledging := false } ∧
      (handleAcknowledge st (Except.ok false)).notice =
        AckNotice.noNotice ∧
      (handleAcknowledge st (Except.ok false)).navigateBack = false ∧
      (handleAcknowledge st (Except.ok false)).requestSent = some a.id := by
  intro st a h
  simp [handleAcknowledge, h]

/-- C2 witness: on the sample active alert, the transport-error path shows
the error dialog and the non-2xx path shows no notice. -/
theorem c2_ack_failure_state_unchanged_witness :
    (handleAcknowledge sampleAlertState (Except.error ())).notice =
      AckNotice.errorDialog ∧
    (handleAcknowledge sampleAlertState (Except.ok false)).notice =
      AckNotice.noNotice :=
  ⟨(c2_ack_failure_state_unchanged sampleAlertState sampleAlert rfl).2.1,
   (c2_ack_failure_state_unchanged sampleAlertState sampleAlert
      rfl).2.2.2.2.2.1⟩

/-- C3 counterexample: a successful (2xx) acknowledge on a held alert does
NOT transition the local view to the no-active-alert state — the held alert
field is never cleared; the code only raises the success dialog and
navigates back on confirmation. -/
theorem c3_counterexample :
    (handleAcknowledge sampleAlertState (Except.ok true)).navigateBack =
      true ∧
    (handleAcknowledge sampleAlertState (Except.ok true)).state.alert =
      some sampleAlert ∧
    (handleAcknowledge sampleAlertState (Except.ok true)).state.alert ≠
      none := by
  decide

/-- C3 amended: for every acknowledge invocation that succeeds (2xx), the
locally held alert is left in place (only the acknowledging flag is
cleared), the success dialog is raised, and the navigate-back transition is
triggered; and navigation back is triggered only once the remote write has
settled with a 2xx response, so the write completes before the dependent
navigation proceeds. -/
theorem c3_ack_success_navigates :
    (∀ (st : AlertState) (a : Alert), st.alert = some a →
      (handleAcknowledge st (Except.ok true)).state =
        { st with acknowledging := false } ∧
      (handleAcknowledge st (Except.ok true)).state.alert = some a ∧
      (handleAcknowledge st (Except.ok true)).notice =
        AckNotice.successDialog ∧
      (handleAcknowledge st (Except.ok true)).navigateBack = true) ∧
    (∀ (st : AlertState) (res : Except Unit Bool),
      (handleAcknowledge st res).navigateBack = true →
      res = Except.ok true) := by
  constructor
  · intro st a h
    simp [handleAcknowledge, h]
  · intro st res h
    rcases hst : st.alert with _ | a
    · simp [handleAcknowledge, hst] at h
    · cases res with
      | error e => simp [handleAcknowledge, hst] at h
      | ok b =>
        have hb : b = true := by simpa [handleAcknowledge, hst] using h
        rw [hb]

/-- C3 witness: on the sample active alert with a 2xx response, the alert
stays held and the navigate-back transition is triggered. -/
theorem c3_ack_success_navigates_witness :
    (handleAcknowledge sampleAlertState (Except.ok true)).state.alert =
      some sampleAlert ∧
    (handleAcknowledge sampleAlertState (Except.ok true)).navigateBack =
      true :=
  ⟨(c3_ack_success_navigates.1 sampleAlertState sampleAlert rfl).2.1,
   (c3_ack_success_navigates.1 sampleAlertState sampleAlert rfl).2.2.2⟩

/-- C6 confirmed: when the latest-alert fetch returns absent, the resulting
state holds no alert and the no-alert view (which contains no acknowledge
control) renders; and invoking acknowledge with no alert held issues no
request, raises no notice, triggers no navigation and leaves the state
unchanged — the held-alert precondition guards the operation. -/
theorem c6_absent_alert_guard :
    (∀ st : AlertState,
      (fetchLatestAlert st (Except.ok none)).alert = none ∧
      renderAlertScreen (fetchLatestAlert st (Except.ok none)) =
        AlertView.noAlertView) ∧
    (∀ (st : AlertState) (res : Except Unit Bool), st.alert = none →
      handleAcknowledge st res =
        { state := st, requestSent := none
          notice := AckNotice.noNotice, navigateBack := false }) := by
  constructor
  · intro st
    exact ⟨rfl, rfl⟩
  · intro st res h
    simp [handleAcknowledge, h]

/-- C6 witness: with no alert held, acknowledge is a complete no-op on the
concrete empty state. -/
theorem c6_absent_alert_guard_witness :
    (fetchLatestAlert sampleAlertState (Except.ok none)).alert = none ∧
    handleAcknowledge emptyAlertState (Except.ok true) =
      { state := emptyAlertState, requestSent := none
        notice := AckNotice.noNotice, navigateBack := false } :=
  ⟨(c6_absent_alert_guard.1 sampleAlertState).1,
   c6_absent_alert_guard.2 emptyAlertState (Except.ok true) rfl⟩

/-- a concrete home-screen state used by concrete evaluations. -/
def homeBefore : HomeState :=
  { status := some ⟨"SAFE", "t0", none⟩, connection := some ⟨true, "p0"⟩
    latestAlert := none, loading := false, refreshing := false }

/-- C4 counterexample: a refresh in which exactly the connection fetch
fails while the status and latest-alert fetches would succeed does NOT
leave the other two resources unchanged — the status fetch precedes the
failure in the sequential try block, so its newly fetched value replaces
the previous one. -/
theorem c4_counterexample :
    (fetchData homeBefore (Except.ok ⟨"WARNING", "t1", none⟩)
        (Except.error ()) (Except.ok none)).status =
      some ⟨"WARNING", "t1", none⟩ ∧
    (fetchData homeBefore (Except.ok ⟨"WARNING", "t1", none⟩)
        (Except.error ()) (Except.ok none)).status ≠ homeBefore.status := by
  decide

/-- C4 amended: the three fetches run sequentially (status, then
connection, then latest alert) inside one try block, so when exactly one
fails, the resources fetched BEFORE the failing one are updated to their
newly fetched values while the failing resource and every later one retain
their previous values (never cleared); in particular, when the first
(status) fetch fails all three displayed values are unchanged. -/
theorem c4_sequential_failure_frame :
    ∀ (st : HomeState) (s : SystemStatus) (c : ConnectionStatus)
      (a : Option Alert),
      fetchData st (Except.error ()) (Except.ok c) (Except.ok a) =
        { st with loading := false, refreshing := false } ∧
      fetchData st (Except.ok s) (Except.error ()) (Except.ok a) =
        { st with status := some s, loading := false
                  refreshing := false } ∧
      fetchData st (Except.ok s) (Except.ok c) (Except.error ()) =
        { st with status := some s, connection := some c
                  loading := false, refreshing := false } := by
  intro st s c a
  exact ⟨rfl, rfl, rfl⟩

/-- ticks applied to a model whose interval is cleared change nothing. -/
theorem runEvents_inactive_ticks (es : List ScreenEvent) :
    ∀ m : TimerModel, m.intervalActive = false →
      (∀ e ∈ es, e = ScreenEvent.timerTick) → runEvents m es = m := by
  induction es with
  | nil => intro m _ _; rfl
  | cons e es ih =>
    intro m hm he
    have he1 : e = ScreenEvent.timerTick := he e (List.mem_cons_self e es)
    have hstep : stepTimer m e = m := by
      subst he1
      simp [stepTimer, hm]
    simp only [runEvents, List.foldl_cons, hstep]
    exact ih m hm fun x hx => he x (List.mem_cons_of_mem e hx)

/-- C7 confirmed: mounting the home screen installs the single periodic
timer with the fixed 30000 ms interval; each tick of the registered
interval triggers one more fetch; the teardown cleanup clears the interval
unconditionally; and after teardown any sequence of timer ticks leaves the
model unchanged — no refresh fires after teardown. -/
theorem c7_timer_lifecycle :
    (∀ m : TimerModel, (stepTimer m ScreenEvent.mount).intervalActive =
        true ∧
      (stepTimer m ScreenEvent.mount).intervalMs = 30000) ∧
    (∀ m : TimerModel,
      (stepTimer m ScreenEvent.unmount).intervalActive = false) ∧
    (∀ m : TimerModel, m.intervalActive = true →
      (stepTimer m ScreenEvent.timerTick).fetchCount = m.fetchCount + 1) ∧
    (∀ (m : TimerModel) (es : List ScreenEvent),
      (∀ e ∈ es, e = ScreenEvent.timerTick) →
      runEvents (stepTimer m ScreenEvent.unmount) es =
        stepTimer m ScreenEvent.unmount) := by
  refine ⟨fun m => ⟨rfl, rfl⟩, fun m => rfl, ?_, ?_⟩
  · intro m hm
    simp [stepTimer, hm]
  · intro m es he
    exact runEvents_inactive_ticks es (stepTimer m ScreenEvent.unmount)
      rfl he

/-- C7 witness: from a concrete mounted model, a tick fetches once more,
and two ticks after teardown change nothing. -/
theorem c7_timer_lifecycle_witness :
    (stepTimer ⟨true, 30000, 5⟩ ScreenEvent.timerTick).fetchCount = 6 ∧
    runEvents (stepTimer ⟨true, 30000, 5⟩ ScreenEvent.unmount)
        [ScreenEvent.timerTick, ScreenEvent.timerTick] =
      stepTimer ⟨true, 30000, 5⟩ ScreenEvent.unmount :=
  ⟨c7_timer_lifecycle.2.2.1 ⟨true, 30000, 5⟩ rfl,
   c7_timer_lifecycle.2.2.2 ⟨true, 30000, 5⟩
     [ScreenEvent.timerTick, ScreenEvent.timerTick] (by simp)⟩

/-- one home-screen operation keeps the loading flag false once false. -/
theorem applyHomeOp_loading_false (st : HomeState) (op : HomeOp)
    (h : st.loading = false) : (applyHomeOp st op).loading = false := by
  cases op with
  | refreshPress => simpa [applyHomeOp, onRefresh] using h
  | fetchComplete a b c => rfl

/-- any sequence of operations keeps the loading flag false once false. -/
theorem runHomeOps_loading_false (ops : List HomeOp) :
    ∀ st : HomeState, st.loading = false →
      (runHomeOps st ops).loading = false := by
  induction ops with
  | nil => intro st h; exact h
  | cons op ops ih =>
    intro st h
    simp only [runHomeOps, List.foldl_cons]
    exact ih (applyHomeOp st op) (applyHomeOp_loading_false st op h)

/-- C8 confirmed: every settled fetch outcome — including a thrown and
caught failure, modelled as `Except.error ()` — is handled totally with no
propagated crash; the finally clauses clear the loading flag on every path,
so after the first fetch settles the loading flag is false and stays false
across every later refresh press and fetch completion; and a failed fetch
leaves the previously displayed snapshot in place on both screens. -/
theorem c8_loading_only_first :
    (∀ (st : HomeState) (r1 : Except Unit SystemStatus)
        (r2 : Except Unit ConnectionStatus)
        (r3 : Except Unit (Option Alert)) (ops : List HomeOp),
      (runHomeOps (fetchData st r1 r2 r3) ops).loading = false) ∧
    (∀ (st : HomeState) (r2 : Except Unit ConnectionStatus)
        (r3 : Except Unit (Option Alert)),
      fetchData st (Except.error ()) r2 r3 =
        { st with loading := false, refreshing := false }) ∧
    (∀ (st : AlertState) (res : Except Unit (Option Alert)),
      (fetchLatestAlert st res).loading = false) ∧
    (∀ st : AlertState,
      fetchLatestAlert st (Except.error ()) =
        { st with loading := false }) := by
  refine ⟨?_, fun st r2 r3 => rfl, fun st res => rfl, fun st => rfl⟩
  intro st r1 r2 r3 ops
  exact runHomeOps_loading_false ops (fetchData st r1 r2 r3) rfl

/-- C5 counterexample: at 30 elapsed seconds the formatter returns
"Just now" with a capital J, not the claimed lowercase "just now". -/
theorem c5_counterexample :
    (0 : Int) ≤ 30000 - 0 ∧ ((30000 : Int) - 0) < 60000 ∧
    formatDateTime 30000 0 = "Just now" ∧
    formatDateTime 30000 0 ≠ "just now" := by
  decide

/-- C5 amended: for every timestamp with non-negative elapsed time the
formatter returns "Just now" (capital J) when elapsed is under 1 minute,
"Nm ago" with N the whole elapsed minutes when under 60 minutes, "Nh ago"
with N the whole elapsed hours when under 24 hours, "Nd ago" with N the
whole elapsed days when under 7 days, and the absolute short locale date
otherwise; the function is a pure mapping of (now, timestamp). -/
theorem c5_relative_time_buckets (now ts : Int) (h0 : 0 ≤ now - ts) :
    (now - ts < 60000 → formatDateTime now ts = "Just now") ∧
    (60000 ≤ now - ts → now - ts < 3600000 →
      formatDateTime now ts =
        toString (Int.fdiv (now - ts) 60000) ++ "m ago") ∧
    (3600000 ≤ now - ts → now - ts < 86400000 →
      formatDateTime now ts =
        toString (Int.fdiv (now - ts) 3600000) ++ "h ago") ∧
    (86400000 ≤ now - ts → now - ts < 604800000 →
      formatDateTime now ts =
        toString (Int.fdiv (now - ts) 86400000) ++ "d ago") ∧
    (604800000 ≤ now - ts →
      formatDateTime now ts = toLocaleDateString_short ts) := by
  have e1 : Int.fdiv (now - ts) 60000 = (now - ts) / 60000 :=
    Int.fdiv_eq_ediv _ (by norm_num)
  have e2 : Int.fdiv ((now - ts) / 60000) 60 = (now - ts) / 60000 / 60 :=
    Int.fdiv_eq_ediv _ (by norm_num)
  have e3 : Int.fdiv ((now - ts) / 60000 / 60) 24 =
      (now - ts) / 60000 / 60 / 24 :=
    Int.fdiv_eq_ediv _ (by norm_num)
  have e4 : Int.fdiv (now - ts) 3600000 = (now - ts) / 3600000 :=
    Int.fdiv_eq_ediv _ (by norm_num)
  have e5 : Int.fdiv (now - ts) 86400000 = (now - ts) / 86400000 :=
    Int.fdiv_eq_ediv _ (by norm_num)
  refine ⟨?_, ?_, ?_, ?_, ?_⟩
  · intro h1
    have hm : (now - ts) / 60000 < 1 := by omega
    simp [formatDateTime, e1, hm]
  · intro ha hb
    have hm1 : ¬((now - ts) / 60000 < 1) := by omega
    have hm2 : (now - ts) / 60000 < 60 := by omega
    simp [formatDateTime, e1, hm1, hm2]
  · intro ha hb
    have hm1 : ¬((now - ts) / 60000 < 1) := by omega
    have hm2 : ¬((now - ts) / 60000 < 60) := by omega
    have hh : (now - ts) / 60000 / 60 < 24 := by omega
    have hhe : (now - ts) / 60000 / 60 = (now - ts) / 3600000 := by omega
    simp only [formatDateTime, e1, e2, if_neg hm1, if_neg hm2, if_pos hh]
    rw [e4, hhe]
  · intro ha hb
    have hm1 : ¬((now - ts) / 60000 < 1) := by omega
    have hm2 : ¬((now - ts) / 60000 < 60) := by omega
    have hh : ¬((now - ts) / 60000 / 60 < 24) := by omega
    have hd : (now - ts) / 60000 / 60 / 24 < 7 := by omega
    have hde : (now - ts) / 60000 / 60 / 24 = (now - ts) / 86400000 := by
      omega
    simp only [formatDateTime, e1, e2, e3, if_neg hm1, if_neg hm2,
      if_neg hh, if_pos hd]
    rw [e5, hde]
  · intro h1
    have hm1 : ¬((now - ts) / 60000 < 1) := by omega
    have hm2 : ¬((now - ts) / 60000 < 60) := by omega
    have hh : ¬((now - ts) / 60000 / 60 < 24) := by omega
    have hd : ¬((now - ts) / 60000 / 60 / 24 < 7) := by omega
    simp [formatDateTime, e1, e2, e3, hm1, hm2, hh, hd]

/-- C5 witness: exactly five elapsed minutes formats as "5m ago", exactly
two elapsed days as "2d ago". -/
theorem c5_relative_time_buckets_witness :
    formatDateTime 300000 0 = "5m ago" ∧
    formatDateTime 172800000 0 = "2d ago" := by
  have h5 := (c5_relative_time_buckets 300000 0 (by decide)).2.1
    (by decide) (by decide)
  have h2d := (c5_relative_time_buckets 172800000 0 (by decide)).2.2.2.1
    (by decide) (by decide)
  exact ⟨h5.trans (by decide), h2d.trans (by decide)⟩

/-- C10 confirmed: for every timestamp strictly in the future (negative
elapsed time) the formatter returns "Just now", because the floored
negative minute count falls under the one-minute bound. -/
theorem c10_future_timestamp_just_now :
    ∀ now ts : Int, now - ts < 0 → formatDateTime now ts = "Just now" := by
  intro now ts h
  have e1 : Int.fdiv (now - ts) 60000 = (now - ts) / 60000 :=
    Int.fdiv_eq_ediv _ (by norm_num)
  have hm : (now - ts) / 60000 < 1 := by omega
  simp [formatDateTime, e1, hm]

/-- C10 witness: a timestamp five seconds in the future formats as
"Just now". -/
theorem c10_future_timestamp_just_now_witness :
    formatDateTime 0 5000 = "Just now" :=
  c10_future_timestamp_just_now 0 5000 (by decide)

end Kreo
